import Mathlib

/-!
Verification of the shapefile-uploader client core (`src/App.jsx`).

The application is single-threaded and event-driven (a React component):
every state change happens inside an event handler, and React applies the
state updates queued by one handler atomically before the next event is
observed.  We therefore embed the component as a pure state record
`AppState` together with one Lean function per event handler, each mapping
the state observed by the handler (plus the handler's inputs, such as the
current clock value or the service response) to the next observed state.
JavaScript strings are Lean `String`s, `Date.now()` is an explicit `Nat`
argument, and the `fetch`/`response.json()`/`JSON.parse` boundary is an
explicit oracle datatype describing what the transport delivered.
-/

namespace ShapefileUploader

/-- A user-selected file, as the `handleFiles` loop sees it (only the
name matters to the classification logic). -/
structure JsFile where
  name : String
  deriving Repr, DecidableEq

/-- JavaScript `name.split('.')` on the character list of a string:
splits on every `'.'`, keeping empty segments, and yields `[""]` on the
empty string (JS semantics). -/
def splitDot : List Char → List (List Char)
  | [] => [[]]
  | c :: rest =>
    let r := splitDot rest
    if c = '.' then [] :: r
    else
      match r with
      | [] => [[c]]
      | h :: t => (c :: h) :: t

/-- `file.name.split('.').pop().toLowerCase()` from `handleFiles`
(App.jsx line 33): the segment after the last dot — or the whole name
when the name has no dot — lowercased. -/
def jsExtension (name : String) : String :=
  ⟨((splitDot name.data).getLastD []).map Char.toLower⟩

/-- `['shp', 'shx', 'dbf'].includes(extension)` (App.jsx line 35). -/
def isRelevantExt (ext : String) : Bool :=
  ext == "shp" || ext == "shx" || ext == "dbf"

/-- Result of the `handleFiles` classification loop: the collected
relevant files plus the three completeness flags. -/
structure ClassifyResult where
  selected : List JsFile
  hasShp : Bool
  hasShx : Bool
  hasDbf : Bool
  deriving Repr, DecidableEq

/-- The body of the `for` loop of `handleFiles` (App.jsx lines 31-42),
iterated left to right over the input, accumulating `newSelectedFiles`
and the `hasShp`/`hasShx`/`hasDbf` flags. -/
def handleFilesLoop : List JsFile → ClassifyResult → ClassifyResult
  | [], acc => acc
  | file :: rest, acc =>
    let extension := jsExtension file.name
    if isRelevantExt extension then
      handleFilesLoop rest
        { selected := acc.selected ++ [file]
          hasShp := acc.hasShp || (extension == "shp")
          hasShx := acc.hasShx || (extension == "shx")
          hasDbf := acc.hasDbf || (extension == "dbf") }
    else
      handleFilesLoop rest acc

/-- `handleFiles` (App.jsx lines 24-46): classifies the raw selection,
starting from an empty collection and all-false flags. -/
def handleFiles (files : List JsFile) : ClassifyResult :=
  handleFilesLoop files ⟨[], false, false, false⟩

/-- `isComplete: hasShp && hasShx && hasDbf` (App.jsx line 45). -/
def isComplete (r : ClassifyResult) : Bool :=
  r.hasShp && r.hasShx && r.hasDbf

/-- `getMissingFiles` (App.jsx lines 48-54). -/
def getMissingFiles (hasShp hasShx hasDbf : Bool) : List String :=
  (if !hasShp then [".shp"] else []) ++
  (if !hasShx then [".shx"] else []) ++
  (if !hasDbf then [".dbf"] else [])

/-- The opaque GeoJSON payload delivered by the conversion service; its
internal structure is never inspected by the client core, so it is
embedded as the raw value handed over by the parse boundary. -/
abbrev GeoJson := String

/-- A rendered layer record as built by `addGeoJsonLayer`
(App.jsx lines 133-139). -/
structure Layer where
  id : Nat
  name : String
  color : String
  data : GeoJson
  visible : Bool
  deriving Repr, DecidableEq

/-- The `statusMessage` state slot `{ text, type, visible }`
(App.jsx line 19). -/
structure Status where
  text : String
  type : String
  visible : Bool
  deriving Repr, DecidableEq

/-- The `activeFeature` state slot `{ layerId, featureId }`
(App.jsx lines 162-165). -/
structure ActiveFeature where
  layerId : Nat
  featureId : String
  deriving Repr, DecidableEq

/-- A feature's attribute mapping (`feature.properties`), key to value. -/
abbrev Props := List (String × String)

/-- The component state: one field per `useState` slot that the core
logic touches (App.jsx lines 14-19). -/
structure AppState where
  selectedFiles : List JsFile
  selectedColor : String
  layers : List Layer
  activeFeature : Option ActiveFeature
  activeProperties : Option Props
  statusMessage : Status
  deriving Repr, DecidableEq

/-- The initial state of the component (the `useState` initializers,
App.jsx lines 14-19). -/
def initialState : AppState :=
  { selectedFiles := []
    selectedColor := "#3388ff"
    layers := []
    activeFeature := none
    activeProperties := none
    statusMessage := ⟨"", "", false⟩ }

/-- `addGeoJsonLayer` (App.jsx lines 128-143): builds a layer named after
the current collection length, with `id = Date.now()` (the `now`
argument), the currently selected color, and `visible = true`, and
appends it to the collection. -/
def addGeoJsonLayer (st : AppState) (now : Nat) (geojsonData : GeoJson) : AppState :=
  let layerName := "Layer " ++ toString (st.layers.length + 1)
  let newLayer : Layer :=
    { id := now
      name := layerName
      color := st.selectedColor
      data := geojsonData
      visible := true }
  { st with layers := st.layers ++ [newLayer] }

/-- `toggleLayerVisibility` (App.jsx lines 146-152): maps over the
collection, replacing `visible` on every layer whose id matches. -/
def toggleLayerVisibility (layers : List Layer) (layerId : Nat) (visible : Bool) :
    List Layer :=
  layers.map fun layer =>
    if layer.id == layerId then { layer with visible := visible } else layer

/-- The same toggle at the state level (`setLayers` with the map above);
no other state slot is mentioned by the handler. -/
def toggleLayerVisibilityApp (st : AppState) (layerId : Nat) (visible : Bool) :
    AppState :=
  { st with layers := toggleLayerVisibility st.layers layerId visible }

/-- JavaScript `a || b` on an optional string `a` (`undefined` is `none`;
an empty string is falsy). Used for `e.target.feature.id || Math.random()...`
and `data.error || '...'`. -/
def jsOrElse (a : Option String) (b : String) : String :=
  match a with
  | some s => if s = "" then b else s
  | none => b

/-- `onFeatureClick` (App.jsx lines 155-169).  `rawFeatureId` is
`e.target.feature.id` (absent when the feature carries none) and `token`
is the random token `Math.random().toString(36).substring(7)` synthesized
for this click.  The handler queues three updates in one event: a reset
of `activeFeature` when the click switches layers, the new
`activeFeature`, and the new `activeProperties`; the next observed state
carries their net effect. -/
def onFeatureClick (st : AppState) (layerId : Nat) (rawFeatureId : Option String)
    (token : String) (props : Props) : AppState :=
  let st :=
    if (match st.activeFeature with
        | some a => a.layerId != layerId
        | none => false : Bool) then
      { st with activeFeature := none }
    else st
  let st :=
    { st with
      activeFeature := some ⟨layerId, jsOrElse rawFeatureId token⟩ }
  { st with activeProperties := some props }

/-- `onMapClick` (App.jsx lines 172-175): clears the selection and the
displayed attributes. -/
def onMapClick (st : AppState) : AppState :=
  { st with activeFeature := none, activeProperties := none }

/-- The layers actually rendered: `layers.filter(layer => layer.visible)`
(App.jsx line 278). -/
def renderedLayers (st : AppState) : List Layer :=
  st.layers.filter (·.visible)

/-- Whether the attribute inspector is shown:
`activeProperties && <FeatureInfo .../>` (App.jsx lines 304-306). -/
def inspectorShown (st : AppState) : Bool :=
  st.activeProperties.isSome

/-- What `await response.json()` delivered: either a parsed JSON object —
whose only fields the code inspects are an optional string `error` field
and the geometry payload — or a JSON string value.  For a string body the
outcome of the later `JSON.parse(data)` (App.jsx line 102) is recorded as
an oracle: `Except.error m` means the parse throws with message `m`. -/
inductive UploadData where
  | objData (error : Option String) (geo : GeoJson)
  | strData (s : String) (parsed : Except String GeoJson)
  deriving Repr

/-- `data.error` in JavaScript: a string body has no `error` property. -/
def UploadData.errorField : UploadData → Option String
  | .objData e _ => e
  | .strData _ _ => none

/-- What the `fetch`/`response.json()` boundary produced:
`netError m` when either throws (network failure or unparsable response
body, both landing in the same `catch` with message `m`), otherwise the
`response.ok` flag and the decoded body. -/
inductive FetchResult where
  | netError (msg : String)
  | response (ok : Bool) (data : UploadData)
  deriving Repr

/-- Upload outcome: a layer was added with the given geometry, or the
attempt failed with the given reason (the thrown error's message). -/
inductive Outcome where
  | layerAdded (geo : GeoJson)
  | failed (reason : String)
  deriving Repr, DecidableEq

def Outcome.isFailed : Outcome → Bool
  | .failed _ => true
  | .layerAdded _ => false

def Outcome.isLayerAdded : Outcome → Bool
  | .layerAdded _ => true
  | .failed _ => false

/-- JavaScript truthiness of `data.error` (an absent field and the empty
string are falsy). -/
def jsTruthy : Option String → Bool
  | some s => s != ""
  | none => false

/-- The `loading` notification set before any network activity
(App.jsx lines 66-70). -/
def loadingStatus : Status := ⟨"Uploading shapefile...", "loading", true⟩

/-- The success notification (App.jsx lines 95-99). -/
def successStatus : Status := ⟨"Shapefile loaded successfully!", "success", true⟩

/-- The error notification built in the `catch` block from the thrown
error's message (App.jsx lines 114-118). -/
def errorStatus (msg : String) : Status := ⟨"Error: " ++ msg, "error", true⟩

/-- `uploadShapefile` (App.jsx lines 64-125) as a function of the state
it observes, the clock value `now` used by `addGeoJsonLayer`, and the
transport oracle.  Returns the next state, the outcome, and the ordered
trace of `setStatusMessage` calls the attempt performed.  The `finally`
block's 5-second auto-hide timer is modelled separately
(`hideTimerCallback`). -/
def uploadShapefile (st : AppState) (now : Nat) (resp : FetchResult) :
    AppState × Outcome × List Status :=
  let st := { st with statusMessage := loadingStatus }
  match resp with
  | .netError msg =>
    ({ st with statusMessage := errorStatus msg }, .failed msg,
      [loadingStatus, errorStatus msg])
  | .response ok data =>
    if ok then
      if jsTruthy data.errorField then
        -- `if (data.error) throw new Error(data.error)` (lines 90-92)
        let msg := data.errorField.getD ""
        ({ st with statusMessage := errorStatus msg }, .failed msg,
          [loadingStatus, errorStatus msg])
      else
        -- success message is set before the body is normalized (line 95)
        let st := { st with statusMessage := successStatus }
        match data with
        | .objData _ geo =>
          let st := addGeoJsonLayer st now geo
          let st := { st with selectedFiles := [] }
          (st, .layerAdded geo, [loadingStatus, successStatus])
        | .strData _ parsed =>
          match parsed with
          | .ok geo =>
            let st := addGeoJsonLayer st now geo
            let st := { st with selectedFiles := [] }
            (st, .layerAdded geo, [loadingStatus, successStatus])
          | .error msg =>
            -- `JSON.parse(data)` throws (line 102), caught at line 112
            ({ st with statusMessage := errorStatus msg }, .failed msg,
              [loadingStatus, successStatus, errorStatus msg])
    else
      -- `throw new Error(data.error || 'Failed to upload shapefile')` (line 110)
      let msg := jsOrElse data.errorField "Failed to upload shapefile"
      ({ st with statusMessage := errorStatus msg }, .failed msg,
        [loadingStatus, errorStatus msg])

/-- A terminal notification is a `success` or `error` one (as opposed to
the transient `loading` one). -/
def isTerminal (s : Status) : Bool :=
  s.type == "success" || s.type == "error"

/-- The one response shape on which the success notification (set at
App.jsx line 95) is later superseded inside the same attempt: a
success-class transport response whose body is a string value that
`JSON.parse` (line 102) rejects. -/
def isUnparsableStringSuccess : FetchResult → Bool
  | .response true (.strData _ (.error _)) => true
  | _ => false

/-- The callback the `finally` block schedules with `setTimeout(..., 5000)`
(App.jsx lines 121-123): `prev => ({ ...prev, visible: false })`.  It
carries no identity or version check: it hides whatever notification is
current when it fires. -/
def hideTimerCallback (prev : Status) : Status :=
  { prev with visible := false }

/-- Events observable on the single notification slot: a handler emits a
new notification (`setStatusMessage` with a fresh record), or one of the
scheduled 5-second hide callbacks fires. -/
inductive NotifEvent where
  | emit (s : Status)
  | timerFire
  deriving Repr, DecidableEq

/-- One step of the notification slot. -/
def notifStep (st : Status) : NotifEvent → Status
  | .emit s => s
  | .timerFire => hideTimerCallback st

/-- Run a sequence of notification-slot events. -/
def notifRun (st : Status) (evs : List NotifEvent) : Status :=
  evs.foldl notifStep st

/-- A session of `addGeoJsonLayer` calls: each event carries the
`Date.now()` value observed by that call and the geometry payload. -/
def appendSession (st : AppState) (evs : List (Nat × GeoJson)) : AppState :=
  evs.foldl (fun s e => addGeoJsonLayer s e.1 e.2) st

/-- The `handleFiles` loop appends to its accumulator exactly the input
files whose computed extension is relevant, in input order. -/
lemma handleFilesLoop_selected (files : List JsFile) (acc : ClassifyResult) :
    (handleFilesLoop files acc).selected
      = acc.selected ++ files.filter (fun f => isRelevantExt (jsExtension f.name)) := by
  induction files generalizing acc with
  | nil => simp [handleFilesLoop]
  | cons f rest ih =>
    by_cases h : isRelevantExt (jsExtension f.name)
    · simp [handleFilesLoop, h, ih]
    · simp [handleFilesLoop, h, ih]

/-- An extension equal to `"shp"` is relevant; contrapositive used to
push the flag update through the irrelevant branch. -/
lemma not_relevant_ne (ext target : String)
    (htgt : isRelevantExt target = true)
    (h : isRelevantExt ext = false) : (ext == target) = false := by
  rcases Bool.eq_false_or_eq_true (ext == target) with hb | hb
  · rw [beq_iff_eq] at hb
    rw [hb, htgt] at h
    exact absurd h (by simp)
  · exact hb

/-- The `hasShp` flag after the loop: set iff the accumulator already had
it or some input file's extension is exactly `"shp"`. -/
lemma handleFilesLoop_hasShp (files : List JsFile) (acc : ClassifyResult) :
    (handleFilesLoop files acc).hasShp
      = (acc.hasShp || files.any (fun f => jsExtension f.name == "shp")) := by
  induction files generalizing acc with
  | nil => simp [handleFilesLoop]
  | cons f rest ih =>
    by_cases h : isRelevantExt (jsExtension f.name)
    · simp [handleFilesLoop, h, ih, Bool.or_assoc]
    · have hne := not_relevant_ne (jsExtension f.name) "shp" (by decide)
        (by simpa using h)
      simp [handleFilesLoop, h, ih, hne]

/-- The `hasShx` flag after the loop. -/
lemma handleFilesLoop_hasShx (files : List JsFile) (acc : ClassifyResult) :
    (handleFilesLoop files acc).hasShx
      = (acc.hasShx || files.any (fun f => jsExtension f.name == "shx")) := by
  induction files generalizing acc with
  | nil => simp [handleFilesLoop]
  | cons f rest ih =>
    by_cases h : isRelevantExt (jsExtension f.name)
    · simp [handleFilesLoop, h, ih, Bool.or_assoc]
    · have hne := not_relevant_ne (jsExtension f.name) "shx" (by decide)
        (by simpa using h)
      simp [handleFilesLoop, h, ih, hne]

/-- The `hasDbf` flag after the loop. -/
lemma handleFilesLoop_hasDbf (files : List JsFile) (acc : ClassifyResult) :
    (handleFilesLoop files acc).hasDbf
      = (acc.hasDbf || files.any (fun f => jsExtension f.name == "dbf")) := by
  induction files generalizing acc with
  | nil => simp [handleFilesLoop]
  | cons f rest ih =>
    by_cases h : isRelevantExt (jsExtension f.name)
    · simp [handleFilesLoop, h, ih, Bool.or_assoc]
    · have hne := not_relevant_ne (jsExtension f.name) "dbf" (by decide)
        (by simpa using h)
      simp [handleFilesLoop, h, ih, hne]

/-- A flag is set iff the classified output contains a file with that
extension (stated for any relevant target extension). -/
lemma any_selected_iff (files : List JsFile) (target : String)
    (htgt : isRelevantExt target = true) :
    (files.any (fun f => jsExtension f.name == target) = true)
      ↔ ∃ f ∈ (handleFiles files).selected, jsExtension f.name = target := by
  rw [handleFiles, handleFilesLoop_selected]
  simp only [List.nil_append, List.any_eq_true, List.mem_filter, beq_iff_eq]
  constructor
  · rintro ⟨f, hf, he⟩
    exact ⟨f, ⟨hf, by rw [he]; exact htgt⟩, he⟩
  · rintro ⟨f, ⟨hf, _⟩, he⟩
    exact ⟨f, hf, he⟩

/-- Claim C6 (counterexample): the claim says every file with no extension is
excluded, but `split('.').pop()` on a dotless name returns the whole
name, so a file literally named `"shp"` — which contains no dot and hence
has no extension — is classified as relevant and kept. -/
theorem classify_dotless_name_kept :
    ("shp".data.contains '.') = false ∧
    (handleFiles [⟨"shp"⟩]).selected = [⟨"shp"⟩] := by decide

/-- Claim C6 (amended): `handleFiles` keeps exactly the input subsequence of
files whose computed extension — the lowercased segment after the last
dot, or the whole lowercased name when the name contains no dot — is in
{shp, shx, dbf}; the output is an order-preserving sublist of the input
and every other file is dropped without error. -/
theorem classify_is_relevant_filter (files : List JsFile) :
    (handleFiles files).selected
        = files.filter (fun f => isRelevantExt (jsExtension f.name)) ∧
    (handleFiles files).selected.Sublist files := by
  have h : (handleFiles files).selected
      = files.filter (fun f => isRelevantExt (jsExtension f.name)) := by
    rw [handleFiles, handleFilesLoop_selected]; simp
  exact ⟨h, h ▸ List.filter_sublist files⟩

/-- Claim C8: `isComplete` is true iff the classified set contains at least one
file of each of the extensions shp, shx and dbf, and `getMissingFiles`
returns exactly those of ".shp", ".shx", ".dbf" whose extension is absent
from the classified set. -/
theorem isComplete_and_missing_spec (files : List JsFile) :
    (isComplete (handleFiles files) = true ↔
      ((∃ f ∈ (handleFiles files).selected, jsExtension f.name = "shp") ∧
       (∃ f ∈ (handleFiles files).selected, jsExtension f.name = "shx") ∧
       (∃ f ∈ (handleFiles files).selected, jsExtension f.name = "dbf"))) ∧
    (∀ s, s ∈ getMissingFiles (handleFiles files).hasShp
            (handleFiles files).hasShx (handleFiles files).hasDbf ↔
      ((s = ".shp" ∧ ¬ ∃ f ∈ (handleFiles files).selected, jsExtension f.name = "shp") ∨
       (s = ".shx" ∧ ¬ ∃ f ∈ (handleFiles files).selected, jsExtension f.name = "shx") ∨
       (s = ".dbf" ∧ ¬ ∃ f ∈ (handleFiles files).selected, jsExtension f.name = "dbf"))) := by
  have hshp : (handleFiles files).hasShp = true
      ↔ ∃ f ∈ (handleFiles files).selected, jsExtension f.name = "shp" := by
    rw [handleFiles, handleFilesLoop_hasShp]
    simpa using any_selected_iff files "shp" (by decide)
  have hshx : (handleFiles files).hasShx = true
      ↔ ∃ f ∈ (handleFiles files).selected, jsExtension f.name = "shx" := by
    rw [handleFiles, handleFilesLoop_hasShx]
    simpa using any_selected_iff files "shx" (by decide)
  have hdbf : (handleFiles files).hasDbf = true
      ↔ ∃ f ∈ (handleFiles files).selected, jsExtension f.name = "dbf" := by
    rw [handleFiles, handleFilesLoop_hasDbf]
    simpa using any_selected_iff files "dbf" (by decide)
  constructor
  · rw [isComplete, Bool.and_eq_true, Bool.and_eq_true, hshp, hshx, hdbf]
    tauto
  · intro s
    rw [← hshp, ← hshx, ← hdbf]
    rcases Bool.eq_false_or_eq_true (handleFiles files).hasShp with h1 | h1 <;>
      rcases Bool.eq_false_or_eq_true (handleFiles files).hasShx with h2 | h2 <;>
      rcases Bool.eq_false_or_eq_true (handleFiles files).hasDbf with h3 | h3 <;>
      simp [getMissingFiles, h1, h2, h3]

/-- The layers a session of appends builds on top of a collection of
`base` existing layers, with the session's fixed selected color. -/
def mkLayers (base : Nat) (color : String) : List (Nat × GeoJson) → List Layer
  | [] => []
  | (t, g) :: rest =>
    ⟨t, "Layer " ++ toString (base + 1), color, g, true⟩ :: mkLayers (base + 1) color rest

lemma addGeoJsonLayer_selectedColor (st : AppState) (now : Nat) (g : GeoJson) :
    (addGeoJsonLayer st now g).selectedColor = st.selectedColor := rfl

/-- Unfolding a session of appends: the existing collection is preserved
and the new layers are `mkLayers` from its length. -/
lemma appendSession_layers (evs : List (Nat × GeoJson)) (st : AppState) :
    (appendSession st evs).layers
      = st.layers ++ mkLayers st.layers.length st.selectedColor evs := by
  induction evs generalizing st with
  | nil => simp [appendSession, mkLayers]
  | cons e rest ih =>
    have h1 : (addGeoJsonLayer st e.1 e.2).layers
        = st.layers ++ [⟨e.1, "Layer " ++ toString (st.layers.length + 1),
            st.selectedColor, e.2, true⟩] := rfl
    have h2 : appendSession st (e :: rest) = appendSession (addGeoJsonLayer st e.1 e.2) rest := by
      simp [appendSession]
    rw [h2, ih, h1, addGeoJsonLayer_selectedColor]
    simp [mkLayers, List.append_assoc, List.length_append]

lemma mkLayers_length (base : Nat) (color : String) (evs : List (Nat × GeoJson)) :
    (mkLayers base color evs).length = evs.length := by
  induction evs generalizing base with
  | nil => simp [mkLayers]
  | cons e rest ih => simp [mkLayers, ih]

lemma mkLayers_ids (base : Nat) (color : String) (evs : List (Nat × GeoJson)) :
    (mkLayers base color evs).map Layer.id = evs.map Prod.fst := by
  induction evs generalizing base with
  | nil => simp [mkLayers]
  | cons e rest ih => simp [mkLayers, ih]

lemma mkLayers_names (base : Nat) (color : String) (evs : List (Nat × GeoJson)) :
    (mkLayers base color evs).map Layer.name
      = (List.range evs.length).map (fun i => "Layer " ++ toString (base + i + 1)) := by
  induction evs generalizing base with
  | nil => simp [mkLayers]
  | cons e rest ih =>
    simp only [mkLayers, List.map_cons, List.length_cons, List.range_succ_eq_map,
      List.map_map, ih]
    refine List.cons_eq_cons.mpr ⟨by simp, ?_⟩
    apply List.map_congr_left
    intro i _
    simp only [Function.comp_apply]
    congr 2
    omega

/-- Claim C1 (counterexample): two appends whose `Date.now()` values coincide
(two uploads landing in the same millisecond) produce a collection of
length 2 whose ids are not pairwise distinct — `id` is `Date.now()`, not
a counter, so the claim's unconditional distinctness fails. -/
theorem append_ids_can_collide :
    ((appendSession initialState [(0, "a"), (0, "b")]).layers.length = 2) ∧
    ¬ ((appendSession initialState [(0, "a"), (0, "b")]).layers.map Layer.id).Nodup := by
  constructor
  · rfl
  · decide

/-- Claim C1 (amended): a session of N appends starting from the empty
collection unconditionally yields length N with default names
"Layer 1" .. "Layer N" in append order; the N ids are pairwise distinct
provided the N `Date.now()` readings are pairwise distinct (e.g. under a
strictly increasing millisecond clock) — only the id-distinctness part
carries that proviso.  (The core has no removal operation at all.) -/
theorem append_session_spec (evs : List (Nat × GeoJson)) :
    (appendSession initialState evs).layers.length = evs.length ∧
    (appendSession initialState evs).layers.map Layer.name
      = (List.range evs.length).map (fun i => "Layer " ++ toString (i + 1)) ∧
    ((evs.map Prod.fst).Nodup →
      ((appendSession initialState evs).layers.map Layer.id).Nodup) := by
  have hl : (appendSession initialState evs).layers
      = mkLayers 0 "#3388ff" evs := by
    rw [appendSession_layers]; rfl
  refine ⟨?_, ?_, fun h => ?_⟩
  · rw [hl, mkLayers_length]
  · rw [hl, mkLayers_names]
    apply List.map_congr_left
    intro i _
    congr 2
    omega
  · rw [hl, mkLayers_ids]; exact h

/-- Claim C1 (witness): two appends at distinct clock readings 10 and 20,
discharging the distinct-readings proviso of the id conclusion. -/
theorem append_session_spec_witness :
    (appendSession initialState [(10, "a"), (20, "b")]).layers.length = 2 ∧
    (appendSession initialState [(10, "a"), (20, "b")]).layers.map Layer.name
      = (List.range 2).map (fun i => "Layer " ++ toString (i + 1)) ∧
    ((appendSession initialState [(10, "a"), (20, "b")]).layers.map Layer.id).Nodup :=
  ⟨(append_session_spec [(10, "a"), (20, "b")]).1,
   (append_session_spec [(10, "a"), (20, "b")]).2.1,
   (append_session_spec [(10, "a"), (20, "b")]).2.2 (by decide)⟩

/-- Claim C9: toggling visibility rewrites, position by position, exactly the
layers whose id matches the target (length and order are therefore
unchanged); a layer at position `i` with a different id is returned
unchanged with all its fields, and when no layer has the target id the
whole collection is returned unchanged. -/
theorem toggle_visibility_frame (layers : List Layer) (lid : Nat) (v : Bool) :
    (toggleLayerVisibility layers lid v).length = layers.length ∧
    (∀ i : Nat, (toggleLayerVisibility layers lid v)[i]?
        = (layers[i]?).map fun layer =>
            if layer.id == lid then { layer with visible := v } else layer) ∧
    (∀ (i : Nat) (l : Layer), layers[i]? = some l → l.id ≠ lid →
        (toggleLayerVisibility layers lid v)[i]? = some l) ∧
    ((∀ l ∈ layers, l.id ≠ lid) → toggleLayerVisibility layers lid v = layers) := by
  refine ⟨by simp [toggleLayerVisibility], fun i => ?_, fun i l hl hne => ?_, fun h => ?_⟩
  · simp [toggleLayerVisibility, List.getElem?_map]
  · simp only [toggleLayerVisibility, List.getElem?_map, hl]
    simp [hne]
  · rw [toggleLayerVisibility]
    refine Eq.trans (List.map_congr_left ?_) (List.map_id layers)
    intro l hl
    rw [if_neg (by simpa using h l hl)]
    rfl

/-- Claim C9 (witness): a two-layer collection toggled at an absent id 5 — the
layer at position 0 (id 1) is untouched, and the whole operation is a
no-op. -/
theorem toggle_visibility_frame_witness :
    (toggleLayerVisibility [⟨1, "Layer 1", "#3388ff", "a", true⟩,
        ⟨2, "Layer 2", "#ff0000", "b", false⟩] 5 false)[0]?
      = some ⟨1, "Layer 1", "#3388ff", "a", true⟩ ∧
    toggleLayerVisibility [⟨1, "Layer 1", "#3388ff", "a", true⟩,
        ⟨2, "Layer 2", "#ff0000", "b", false⟩] 5 false
      = [⟨1, "Layer 1", "#3388ff", "a", true⟩,
         ⟨2, "Layer 2", "#ff0000", "b", false⟩] :=
  ⟨(toggle_visibility_frame [⟨1, "Layer 1", "#3388ff", "a", true⟩,
      ⟨2, "Layer 2", "#ff0000", "b", false⟩] 5 false).2.2.1 0
      ⟨1, "Layer 1", "#3388ff", "a", true⟩ (by decide) (by decide),
   (toggle_visibility_frame [⟨1, "Layer 1", "#3388ff", "a", true⟩,
      ⟨2, "Layer 2", "#ff0000", "b", false⟩] 5 false).2.2.2 (by decide)⟩

/-- Claim C10: a visibility toggle never touches the active selection or the
displayed attributes (the handler only calls `setLayers`), and the
inspector stays shown exactly as before; when the toggle hides a layer,
no rendered layer carries the hidden id afterwards — in particular the
selection may keep pointing at a layer that is no longer rendered. -/
theorem toggle_preserves_selection (st : AppState) (lid : Nat) (v : Bool) :
    (toggleLayerVisibilityApp st lid v).activeFeature = st.activeFeature ∧
    (toggleLayerVisibilityApp st lid v).activeProperties = st.activeProperties ∧
    inspectorShown (toggleLayerVisibilityApp st lid v) = inspectorShown st ∧
    (v = false → ∀ l ∈ renderedLayers (toggleLayerVisibilityApp st lid v), l.id ≠ lid) := by
  refine ⟨rfl, rfl, rfl, fun hv l hl => ?_⟩
  subst hv
  simp only [renderedLayers, toggleLayerVisibilityApp, toggleLayerVisibility,
    List.mem_filter, List.mem_map] at hl
  obtain ⟨⟨l0, _, hf⟩, hvis⟩ := hl
  by_cases hid : l0.id == lid
  · rw [if_pos hid] at hf
    rw [← hf] at hvis
    exact absurd hvis (by simp)
  · rw [if_neg hid] at hf
    rw [← hf]
    simpa using hid

/-- Claim C10 (witness): hiding layer 1 while its feature is selected — the
selection and the inspector survive, and layer 1 is not rendered. -/
theorem toggle_preserves_selection_witness :
    (toggleLayerVisibilityApp
        { initialState with
          layers := [⟨1, "Layer 1", "#3388ff", "a", true⟩]
          activeFeature := some ⟨1, "f1"⟩
          activeProperties := some [("k", "v")] } 1 false).activeFeature
      = some ⟨1, "f1"⟩ ∧
    ∀ l ∈ renderedLayers (toggleLayerVisibilityApp
        { initialState with
          layers := [⟨1, "Layer 1", "#3388ff", "a", true⟩]
          activeFeature := some ⟨1, "f1"⟩
          activeProperties := some [("k", "v")] } 1 false), l.id ≠ 1 := by
  have h := toggle_preserves_selection
    { initialState with
      layers := [⟨1, "Layer 1", "#3388ff", "a", true⟩]
      activeFeature := some ⟨1, "f1"⟩
      activeProperties := some [("k", "v")] } 1 false
  exact ⟨h.1, h.2.2.2 rfl⟩

/-- Claim C7: from any starting state, clicking a feature of layer L1, then a
feature of a different layer L2, then the map background, yields
selections Active(L1,F1), Active(L2,F2), Idle in that order: the only
state between the two clicks is Active(L1,F1) — not Idle and not yet
Active(L2,F2) — the state after the second click is exactly Active(L2,F2)
with F2's attributes displayed, and no state from the second click on has
layer L1's feature as the displayed selection. -/
theorem selection_click_sequence (s0 : AppState) (L1 L2 : Nat) (F1 F2 t1 t2 : String)
    (p1 p2 : Props) (hL : L2 ≠ L1) (hF1 : F1 ≠ "") (hF2 : F2 ≠ "") :
    (onFeatureClick s0 L1 (some F1) t1 p1).activeFeature = some ⟨L1, F1⟩ ∧
    (onFeatureClick s0 L1 (some F1) t1 p1).activeFeature ≠ none ∧
    (onFeatureClick s0 L1 (some F1) t1 p1).activeFeature ≠ some ⟨L2, F2⟩ ∧
    (onFeatureClick (onFeatureClick s0 L1 (some F1) t1 p1) L2 (some F2) t2 p2).activeFeature
      = some ⟨L2, F2⟩ ∧
    (onFeatureClick (onFeatureClick s0 L1 (some F1) t1 p1) L2 (some F2) t2 p2).activeProperties
      = some p2 ∧
    (onMapClick (onFeatureClick (onFeatureClick s0 L1 (some F1) t1 p1) L2
        (some F2) t2 p2)).activeFeature = none ∧
    (onMapClick (onFeatureClick (onFeatureClick s0 L1 (some F1) t1 p1) L2
        (some F2) t2 p2)).activeProperties = none ∧
    (∀ a : ActiveFeature,
      ((onFeatureClick (onFeatureClick s0 L1 (some F1) t1 p1) L2
          (some F2) t2 p2).activeFeature = some a ∨
       (onMapClick (onFeatureClick (onFeatureClick s0 L1 (some F1) t1 p1) L2
          (some F2) t2 p2)).activeFeature = some a) →
      a.layerId ≠ L1) := by
  have e1 : (onFeatureClick s0 L1 (some F1) t1 p1).activeFeature = some ⟨L1, F1⟩ := by
    simp [onFeatureClick, jsOrElse, hF1]
  have e2 : (onFeatureClick (onFeatureClick s0 L1 (some F1) t1 p1) L2
      (some F2) t2 p2).activeFeature = some ⟨L2, F2⟩ := by
    simp [onFeatureClick, jsOrElse, hF2]
  refine ⟨e1, by rw [e1]; exact fun h => Option.noConfusion h, ?_, e2, ?_, rfl, rfl, ?_⟩
  · rw [e1]
    intro h
    exact hL (by injection h with h'; injection h' with h1 _; exact h1.symm)
  · simp [onFeatureClick]
  · intro a ha
    rcases ha with ha | ha
    · rw [e2] at ha
      injection ha with ha
      rw [← ha]
      simpa using hL
    · rw [show (onMapClick (onFeatureClick (onFeatureClick s0 L1 (some F1) t1 p1) L2
          (some F2) t2 p2)).activeFeature = none from rfl] at ha
      exact Option.noConfusion ha

/-- Claim C7 (witness): the concrete sequence click(1,"f1"), click(2,"f2"),
map-click from the initial state. -/
theorem selection_click_sequence_witness :
    (onFeatureClick initialState 1 (some "f1") "t" [("k", "v")]).activeFeature
      = some ⟨1, "f1"⟩ ∧
    (onFeatureClick initialState 1 (some "f1") "t" [("k", "v")]).activeFeature ≠ none ∧
    (onFeatureClick initialState 1 (some "f1") "t" [("k", "v")]).activeFeature
      ≠ some ⟨2, "f2"⟩ ∧
    (onFeatureClick (onFeatureClick initialState 1 (some "f1") "t" [("k", "v")]) 2
        (some "f2") "u" []).activeFeature = some ⟨2, "f2"⟩ ∧
    (onFeatureClick (onFeatureClick initialState 1 (some "f1") "t" [("k", "v")]) 2
        (some "f2") "u" []).activeProperties = some [] ∧
    (onMapClick (onFeatureClick (onFeatureClick initialState 1 (some "f1") "t"
        [("k", "v")]) 2 (some "f2") "u" [])).activeFeature = none ∧
    (onMapClick (onFeatureClick (onFeatureClick initialState 1 (some "f1") "t"
        [("k", "v")]) 2 (some "f2") "u" [])).activeProperties = none ∧
    (∀ a : ActiveFeature,
      ((onFeatureClick (onFeatureClick initialState 1 (some "f1") "t" [("k", "v")]) 2
          (some "f2") "u" []).activeFeature = some a ∨
       (onMapClick (onFeatureClick (onFeatureClick initialState 1 (some "f1") "t"
          [("k", "v")]) 2 (some "f2") "u" [])).activeFeature = some a) →
      a.layerId ≠ 1) :=
  selection_click_sequence initialState 1 2 "f1" "f2" "t" "u" [("k", "v")] []
    (by decide) (by decide) (by decide)

/-- Claim C3: an upload attempt that fails — transport error, non-2xx status,
service-reported error, or unparsable 2xx string body — leaves the layer
collection and the file selection exactly as they were, and an attempt
that succeeds clears the file selection. -/
theorem upload_failure_frame (st : AppState) (now : Nat) (resp : FetchResult) :
    ((uploadShapefile st now resp).2.1.isFailed = true →
      (uploadShapefile st now resp).1.layers = st.layers ∧
      (uploadShapefile st now resp).1.selectedFiles = st.selectedFiles) ∧
    ((uploadShapefile st now resp).2.1.isLayerAdded = true →
      (uploadShapefile st now resp).1.selectedFiles = []) := by
  rcases resp with msg | ⟨ok, data⟩
  · simp [uploadShapefile, Outcome.isFailed, Outcome.isLayerAdded]
  · cases ok
    · rcases data with ⟨err, geo⟩ | ⟨s, parsed⟩ <;>
        simp [uploadShapefile, Outcome.isFailed, Outcome.isLayerAdded]
    · rcases data with ⟨err, geo⟩ | ⟨s, parsed⟩
      · rcases err with _ | e
        · simp [uploadShapefile, jsTruthy, UploadData.errorField,
            Outcome.isFailed, Outcome.isLayerAdded, addGeoJsonLayer]
        · by_cases he : e = ""
          · simp [uploadShapefile, jsTruthy, UploadData.errorField, he,
              Outcome.isFailed, Outcome.isLayerAdded, addGeoJsonLayer]
          · simp [uploadShapefile, jsTruthy, UploadData.errorField, he,
              Outcome.isFailed, Outcome.isLayerAdded]
      · rcases parsed with geo | msg <;>
          simp [uploadShapefile, jsTruthy, UploadData.errorField,
            Outcome.isFailed, Outcome.isLayerAdded, addGeoJsonLayer]

/-- Claim C3 (witness): a concrete failing attempt (service says
"unsupported projection" inside a 200) preserves layers and the file
selection, and a concrete successful attempt clears the selection. -/
theorem upload_failure_frame_witness :
    (uploadShapefile
        { initialState with selectedFiles := [⟨"a.shp"⟩, ⟨"a.shx"⟩, ⟨"a.dbf"⟩] } 0
        (.response true (.objData (some "unsupported projection") "g"))).1.layers
      = ({ initialState with
          selectedFiles := [⟨"a.shp"⟩, ⟨"a.shx"⟩, ⟨"a.dbf"⟩] } : AppState).layers ∧
    (uploadShapefile
        { initialState with selectedFiles := [⟨"a.shp"⟩, ⟨"a.shx"⟩, ⟨"a.dbf"⟩] } 0
        (.response true (.objData (some "unsupported projection") "g"))).1.selectedFiles
      = ({ initialState with
          selectedFiles := [⟨"a.shp"⟩, ⟨"a.shx"⟩, ⟨"a.dbf"⟩] } : AppState).selectedFiles ∧
    (uploadShapefile
        { initialState with selectedFiles := [⟨"a.shp"⟩, ⟨"a.shx"⟩, ⟨"a.dbf"⟩] } 0
        (.response true (.objData none "g"))).1.selectedFiles = [] := by
  have h1 := upload_failure_frame
    { initialState with selectedFiles := [⟨"a.shp"⟩, ⟨"a.shx"⟩, ⟨"a.dbf"⟩] } 0
    (.response true (.objData (some "unsupported projection") "g"))
  have h2 := upload_failure_frame
    { initialState with selectedFiles := [⟨"a.shp"⟩, ⟨"a.shx"⟩, ⟨"a.dbf"⟩] } 0
    (.response true (.objData none "g"))
  exact ⟨(h1.1 (by decide)).1, (h1.1 (by decide)).2, h2.2 (by decide)⟩

/-- Claim C4 (counterexample): a 2xx response whose body carries an `error`
field with the empty string as value — the field is present, but
JavaScript's `if (data.error)` sees a falsy value, so the attempt is
treated as a success and a layer is added instead of failing with that
field's value. -/
theorem upload_empty_error_field_not_failed :
    (uploadShapefile initialState 0 (.response true (.objData (some "") "g"))).2.1
      = .layerAdded "g" ∧
    ¬ (uploadShapefile initialState 0 (.response true (.objData (some "") "g"))).2.1
      = .failed "" := by
  exact ⟨rfl, by decide⟩

/-- Claim C4 (amended): a 2xx response whose body carries a non-empty `error`
field yields `Failed` with that field's value as the reason, and a
non-2xx response whose body carries no `error` field yields `Failed`
with exactly "Failed to upload shapefile". -/
theorem upload_error_reason_spec (st : AppState) (now : Nat) (e : String)
    (geo : GeoJson) (data : UploadData) (he : e ≠ "")
    (hd : data.errorField = none) :
    (uploadShapefile st now (.response true (.objData (some e) geo))).2.1
      = .failed e ∧
    (uploadShapefile st now (.response false data)).2.1
      = .failed "Failed to upload shapefile" := by
  constructor
  · simp [uploadShapefile, jsTruthy, UploadData.errorField, he]
  · simp [uploadShapefile, hd, jsOrElse]

/-- Claim C4 (witness): the service reports "unsupported projection" inside a
200, and a bare 500 with no error field. -/
theorem upload_error_reason_spec_witness :
    (uploadShapefile initialState 0
        (.response true (.objData (some "unsupported projection") "g"))).2.1
      = .failed "unsupported projection" ∧
    (uploadShapefile initialState 0 (.response false (.objData none "g"))).2.1
      = .failed "Failed to upload shapefile" :=
  upload_error_reason_spec initialState 0 "unsupported projection" "g"
    (.objData none "g") (by decide) rfl

/-- Claim C5 (counterexample): when a 2xx body is a string that fails to parse
as JSON, the attempt emits the success notification (set before
`JSON.parse` runs) and then the error notification from the catch block:
two terminal notifications for one attempt, refuting "never both". -/
theorem upload_two_terminal_notifs :
    ((uploadShapefile initialState 0
        (.response true (.strData "x" (.error "Unexpected token")))).2.2).map Status.type
      = ["loading", "success", "error"] ∧
    (((uploadShapefile initialState 0
        (.response true (.strData "x" (.error "Unexpected token")))).2.2).filter
          isTerminal).length = 2 := by
  exact ⟨rfl, rfl⟩

/-- Claim C5 (amended): every upload attempt begins with the loading
notification and ends with a terminal (success or error) one — no path
leaves the handler without a terminal notification, so no error escapes
the asynchronous boundary — and the number of terminal notifications
emitted is exactly one on every path except the single path where a
2xx body is a string that `JSON.parse` rejects, which emits exactly two
(the transient success notification set before the parse, then the
terminal error one). -/
theorem upload_notification_trace (st : AppState) (now : Nat) (resp : FetchResult) :
    ((uploadShapefile st now resp).2.2).headD ⟨"", "", false⟩ = loadingStatus ∧
    isTerminal (((uploadShapefile st now resp).2.2).getLastD ⟨"", "", false⟩) = true ∧
    (((uploadShapefile st now resp).2.2).filter isTerminal).length
      = (if isUnparsableStringSuccess resp then 2 else 1) := by
  rcases resp with msg | ⟨ok, data⟩
  · simp [uploadShapefile, isTerminal, loadingStatus, errorStatus,
      isUnparsableStringSuccess]
  · cases ok
    · rcases data with ⟨err, geo⟩ | ⟨s, parsed⟩ <;>
        simp [uploadShapefile, isTerminal, loadingStatus, errorStatus, jsOrElse,
          isUnparsableStringSuccess]
    · rcases data with ⟨err, geo⟩ | ⟨s, parsed⟩
      · rcases err with _ | e
        · simp [uploadShapefile, jsTruthy, UploadData.errorField,
            isTerminal, loadingStatus, errorStatus, successStatus,
            isUnparsableStringSuccess]
        · by_cases he : e = "" <;>
            simp [uploadShapefile, jsTruthy, UploadData.errorField, he,
              isTerminal, loadingStatus, errorStatus, successStatus,
              isUnparsableStringSuccess]
      · rcases parsed with geo | msg <;>
          simp [uploadShapefile, jsTruthy, UploadData.errorField,
            isTerminal, loadingStatus, errorStatus, successStatus,
            isUnparsableStringSuccess]

/-- Claim C2: the scheduled auto-hide callback is
`prev => ({ ...prev, visible: false })` — it carries no identity or
version check and is never cancelled.  In the scenario where a first
upload's terminal notification is live with its 5-second timer pending
and a second upload then emits its (newer) notification, the first
timer's firing sets the newer notification's `visible` flag to `false`,
hiding a notification it does not own. -/
theorem stale_timer_hides_newer_notif :
    notifRun successStatus [.emit loadingStatus, .timerFire]
      = { loadingStatus with visible := false } ∧
    (notifRun successStatus [.emit loadingStatus, .timerFire]).visible = false := by
  exact ⟨rfl, rfl⟩

end ShapefileUploader
